import Mathlib

/-!
Verification development for the course-taxonomy pipeline repository.

The development shallowly embeds the JavaScript/TypeScript modules that the
claims concern:

* `src/scripts/pythonInterop.js` — tolerant JSON parsing of subprocess
  output (`parseJsonOutput`), the per-candidate subprocess runner
  (`runPythonCommand`, modelled by its close-event handler), and the
  multi-candidate executor (`runPythonJson`).
* the orchestrator module (`src/unnamed/part_015`) — the per-course `run`
  state machine with prefer-existing short circuit, build/tag sequence,
  final read-back and fallback, plus the aggregate-state merge
  (`mergeCourseIntoClassNames`).
* the concepts POST route (`src/unnamed/part_011`) — per-course batch
  trigger with failed-course accounting.
* `src/scripts/getCanvas.js` — `safeGetAllPages` / `fetchCanvasData`.
* the legacy concept read surface (`src/server.js` / `src/unnamed/part_011`)
  — `getConceptualUnits`.

Subprocess execution, HTTP and the file system are external effects; they are
embedded as explicit oracle records giving the outcome of each external call,
and the functions under verification are translated as pure functions of
those outcomes.  JavaScript strings are modelled by `String`, JS `||` on
strings by `strOr`, JS `String.prototype.trim` by `jsTrimS`, and JSON values
by the executable `Json` type with a fuel-based strict parser `Json.parseL`
mirroring `JSON.parse`.
-/

/-- Whitespace as matched by the JS regex class `\s` and by
`String.prototype.trim` (ASCII part plus NBSP and BOM; the exotic Unicode
space code points do not occur in any input considered here). -/
def isJsWs (c : Char) : Bool :=
  c = ' ' || c = '\t' || c = '\n' || c = '\r' ||
  c = Char.ofNat 11 || c = Char.ofNat 12 || c = Char.ofNat 160 || c = Char.ofNat 65279

/-- JS `String.prototype.trim` on a character list. -/
def jsTrim (cs : List Char) : List Char :=
  ((cs.dropWhile isJsWs).reverse.dropWhile isJsWs).reverse

/-- JS `String.prototype.trim` on a `String`. -/
def jsTrimS (s : String) : String :=
  String.mk (jsTrim s.data)

/-- JS `a || b` restricted to strings (the only falsy string is `""`). -/
def strOr (a b : String) : String :=
  if a = "" then b else a

/-- JS `Array.prototype.join(" | ")` as used to aggregate warnings. -/
def joinSep : List String → String
  | [] => ""
  | [p] => p
  | p :: q :: rest => p ++ " | " ++ joinSep (q :: rest)

/-- JS `[...new Set(xs)]` with an explicit seen accumulator: keep the
first occurrence of each element, in insertion order. -/
def jsSetDedupAux (seen : List String) : List String → List String
  | [] => []
  | x :: rest =>
    if seen.contains x then jsSetDedupAux seen rest
    else x :: jsSetDedupAux (x :: seen) rest

/-- JS `[...new Set(xs)]`: deduplicate keeping the first occurrence. -/
def jsSetDedup (l : List String) : List String :=
  jsSetDedupAux [] l

/-- JSON values as produced by `JSON.parse`.  Numeric literals are kept as
their source text: no function under verification inspects a numeric
magnitude, so this avoids modelling double-precision rounding while keeping
parsing exact. -/
inductive Json where
  | null
  | bool (b : Bool)
  | num (lit : String)
  | str (s : String)
  | arr (elems : List Json)
  | obj (fields : List (String × Json))
deriving Repr, Inhabited

/-- JSON interelement whitespace (RFC 8259: space, tab, LF, CR). -/
def isJsonWs (c : Char) : Bool :=
  c = ' ' || c = '\t' || c = '\n' || c = '\r'

/-- Hexadecimal digit value, for `\uXXXX` string escapes. -/
def hexVal? (c : Char) : Option Nat :=
  if '0' ≤ c ∧ c ≤ '9' then some (c.toNat - '0'.toNat)
  else if 'a' ≤ c ∧ c ≤ 'f' then some (c.toNat - 'a'.toNat + 10)
  else if 'A' ≤ c ∧ c ≤ 'F' then some (c.toNat - 'A'.toNat + 10)
  else none

/-- Parse the body of a JSON string literal (the opening quote already
consumed); returns the decoded characters and the remaining input. -/
def parseJsonString (fuel : Nat) (cs : List Char) : Except String (List Char × List Char) :=
  match fuel with
  | 0 => Except.error "out of fuel"
  | fuel + 1 =>
    match cs with
    | [] => Except.error "Unterminated string in JSON"
    | c :: rest =>
      if c = '"' then Except.ok ([], rest)
      else if c = '\\' then
        match rest with
        | [] => Except.error "Unterminated string in JSON"
        | e :: rest2 =>
          if e = 'u' then
            match rest2 with
            | h1 :: h2 :: h3 :: h4 :: rest3 =>
              match hexVal? h1, hexVal? h2, hexVal? h3, hexVal? h4 with
              | some v1, some v2, some v3, some v4 =>
                match parseJsonString fuel rest3 with
                | Except.ok (tail, rem) =>
                  Except.ok (Char.ofNat (((v1 * 16 + v2) * 16 + v3) * 16 + v4) :: tail, rem)
                | Except.error m => Except.error m
              | _, _, _, _ => Except.error "Bad Unicode escape in JSON"
            | _ => Except.error "Bad Unicode escape in JSON"
          else
            let decoded? : Option Char :=
              if e = '"' then some '"'
              else if e = '\\' then some '\\'
              else if e = '/' then some '/'
              else if e = 'b' then some (Char.ofNat 8)
              else if e = 'f' then some (Char.ofNat 12)
              else if e = 'n' then some '\n'
              else if e = 'r' then some '\r'
              else if e = 't' then some '\t'
              else none
            match decoded? with
            | none => Except.error "Bad escape in JSON"
            | some d =>
              match parseJsonString fuel rest2 with
              | Except.ok (tail, rem) => Except.ok (d :: tail, rem)
              | Except.error m => Except.error m
      else if c.toNat < 32 then Except.error "Bad control character in JSON string"
      else
        match parseJsonString fuel rest with
        | Except.ok (tail, rem) => Except.ok (c :: tail, rem)
        | Except.error m => Except.error m

/-- Digits of a JSON number component. -/
def takeDigits (cs : List Char) : List Char × List Char :=
  (cs.takeWhile Char.isDigit, cs.dropWhile Char.isDigit)

/-- Parse a JSON number literal (grammar of RFC 8259, as enforced by
`JSON.parse`); returns the literal text and the remaining input. -/
def parseJsonNumber (cs : List Char) : Except String (List Char × List Char) :=
  let (sign, cs1) :=
    match cs with
    | '-' :: rest => (['-'], rest)
    | _ => (([] : List Char), cs)
  match cs1 with
  | [] => Except.error "Unexpected end of JSON input"
  | d :: _ =>
    if ¬ d.isDigit then Except.error "Unexpected token in JSON"
    else
      let (intPart, cs2) := takeDigits cs1
      -- JSON.parse rejects leading zeros such as "01".
      if intPart.length > 1 ∧ intPart.headD '0' = '0' then
        Except.error "Unexpected number in JSON"
      else
        let (fracPart, cs3) :=
          match cs2 with
          | '.' :: rest =>
            let (ds, rem) := takeDigits rest
            if ds.isEmpty then (none, cs2) else (some ('.' :: ds), rem)
          | _ => (none, cs2)
        match fracPart, cs2 with
        | none, '.' :: _ => Except.error "Unexpected token in JSON"
        | _, _ =>
          let fracChars := fracPart.getD []
          let (expPart, cs4) :=
            match cs3 with
            | e :: rest =>
              if e = 'e' ∨ e = 'E' then
                let (signE, rest2) :=
                  match rest with
                  | '+' :: r => (['+'], r)
                  | '-' :: r => (['-'], r)
                  | _ => (([] : List Char), rest)
                let (ds, rem) := takeDigits rest2
                if ds.isEmpty then (none, cs3) else (some (e :: signE ++ ds), rem)
              else (none, cs3)
            | [] => (none, cs3)
          match expPart, cs3 with
          | none, e :: _ =>
            if e = 'e' ∨ e = 'E' then Except.error "Unexpected token in JSON"
            else Except.ok (sign ++ intPart ++ fracChars, cs3)
          | none, [] => Except.ok (sign ++ intPart ++ fracChars, cs3)
          | some ec, _ => Except.ok (sign ++ intPart ++ fracChars ++ ec, cs4)

mutual

/-- Parse one JSON value at the head of the input. -/
def parseJsonValue (fuel : Nat) (cs : List Char) : Except String (Json × List Char) :=
  match fuel with
  | 0 => Except.error "out of fuel"
  | fuel + 1 =>
    match cs with
    | [] => Except.error "Unexpected end of JSON input"
    | 'n' :: 'u' :: 'l' :: 'l' :: rest => Except.ok (Json.null, rest)
    | 't' :: 'r' :: 'u' :: 'e' :: rest => Except.ok (Json.bool true, rest)
    | 'f' :: 'a' :: 'l' :: 's' :: 'e' :: rest => Except.ok (Json.bool false, rest)
    | '"' :: rest =>
      match parseJsonString (rest.length + 1) rest with
      | Except.ok (chars, rem) => Except.ok (Json.str (String.mk chars), rem)
      | Except.error m => Except.error m
    | '[' :: rest => parseJsonArray fuel (rest.dropWhile isJsonWs) true
    | '{' :: rest => parseJsonObject fuel (rest.dropWhile isJsonWs) true
    | _ => parseJsonNumber cs |>.map (fun (lit, rem) => (Json.num (String.mk lit), rem))

/-- Parse the elements of a JSON array, the opening bracket and any leading
whitespace already consumed; `first` is true before the first element. -/
def parseJsonArray (fuel : Nat) (cs : List Char) (first : Bool) : Except String (Json × List Char) :=
  match fuel with
  | 0 => Except.error "out of fuel"
  | fuel + 1 =>
    match cs with
    | ']' :: rest =>
      if first then Except.ok (Json.arr [], rest)
      else Except.error "Unexpected token in JSON"
    | _ =>
      match parseJsonValue fuel cs with
      | Except.error m => Except.error m
      | Except.ok (v, rem) =>
        let rem2 := rem.dropWhile isJsonWs
        match rem2 with
        | ',' :: rest =>
          match parseJsonArray fuel (rest.dropWhile isJsonWs) false with
          | Except.ok (Json.arr vs, rem3) => Except.ok (Json.arr (v :: vs), rem3)
          | Except.ok _ => Except.error "impossible"
          | Except.error m => Except.error m
        | ']' :: rest => Except.ok (Json.arr [v], rest)
        | _ => Except.error "Unexpected token in JSON"

/-- Parse the members of a JSON object, the opening brace and any leading
whitespace already consumed; `first` is true before the first member. -/
def parseJsonObject (fuel : Nat) (cs : List Char) (first : Bool) : Except String (Json × List Char) :=
  match fuel with
  | 0 => Except.error "out of fuel"
  | fuel + 1 =>
    match cs with
    | '}' :: rest =>
      if first then Except.ok (Json.obj [], rest)
      else Except.error "Unexpected token in JSON"
    | '"' :: rest =>
      match parseJsonString (rest.length + 1) rest with
      | Except.error m => Except.error m
      | Except.ok (keyChars, rem) =>
        match rem.dropWhile isJsonWs with
        | ':' :: rest2 =>
          match parseJsonValue fuel (rest2.dropWhile isJsonWs) with
          | Except.error m => Except.error m
          | Except.ok (v, rem2) =>
            let rem3 := rem2.dropWhile isJsonWs
            match rem3 with
            | ',' :: rest3 =>
              match parseJsonObject fuel (rest3.dropWhile isJsonWs) false with
              | Except.ok (Json.obj fs, rem4) =>
                Except.ok (Json.obj ((String.mk keyChars, v) :: fs), rem4)
              | Except.ok _ => Except.error "impossible"
              | Except.error m => Except.error m
            | '}' :: rest3 => Except.ok (Json.obj [(String.mk keyChars, v)], rest3)
            | _ => Except.error "Unexpected token in JSON"
        | _ => Except.error "Unexpected token in JSON"
    | _ => Except.error "Unexpected token in JSON"

end

/-- `JSON.parse` on a character list: one value, surrounding whitespace
allowed, whole input consumed. -/
def Json.parseL (cs : List Char) : Except String Json :=
  match parseJsonValue (cs.length + 1) (cs.dropWhile isJsonWs) with
  | Except.error m => Except.error m
  | Except.ok (v, rem) =>
    if (rem.dropWhile isJsonWs).isEmpty then Except.ok v
    else Except.error "Unexpected non-whitespace character after JSON"

/-- `JSON.parse` on a `String`. -/
def Json.parse (s : String) : Except String Json :=
  Json.parseL s.data

/-- JS property read `v.k` on a parsed JSON value: `none` models
`undefined`.  With duplicate keys `JSON.parse` keeps the last occurrence. -/
def Json.getField (j : Json) (k : String) : Option Json :=
  match j with
  | Json.obj fields => (fields.reverse.find? (fun f => f.1 = k)).map (fun f => f.2)
  | _ => none

/-- JS truthiness of a parsed JSON value (a numeric literal is falsy exactly
when its mantissa digits are all zero). -/
def jsTruthy (j : Json) : Bool :=
  match j with
  | Json.null => false
  | Json.bool b => b
  | Json.str s => s ≠ ""
  | Json.num lit =>
    ¬ ((lit.data.takeWhile (fun c => c ≠ 'e' ∧ c ≠ 'E')).filter Char.isDigit).all (fun c => c = '0')
  | Json.arr _ => true
  | Json.obj _ => true

/-! ## `src/scripts/pythonInterop.js` — `parseJsonOutput` -/

/-- The backtick character, used by the fenced-code-block regex. -/
def backtickChar : Char := Char.ofNat 96

/-- Index of the first occurrence of three consecutive backticks. -/
def findTripleBacktick : List Char → Option Nat
  | [] => none
  | c :: rest =>
    match rest with
    | d :: e :: _ =>
      if c = backtickChar ∧ d = backtickChar ∧ e = backtickChar then some 0
      else (findTripleBacktick rest).map (· + 1)
    | _ => (findTripleBacktick rest).map (· + 1)

/-- Consume an optional case-insensitive `json` tag, as `(?:json)?` does
right after the opening fence. -/
def stripJsonTagCI (cs : List Char) : List Char :=
  match cs with
  | a :: b :: c :: d :: rest =>
    if a.toLower = 'j' ∧ b.toLower = 's' ∧ c.toLower = 'o' ∧ d.toLower = 'n'
    then rest else cs
  | _ => cs

/-- Capture group of the first match of the fenced-block regex
`/(three backticks)(?:json)?\s*([\s\S]*?)(three backticks)/i`: the leftmost
match opens at the first triple backtick, the optional tag and the greedy
`\s*` consume no backticks, and the lazy group then runs to the next triple
backtick; with no closing fence after the first opening there is no match
anywhere. -/
def fencedGroup (cs : List Char) : Option (List Char) :=
  match findTripleBacktick cs with
  | none => none
  | some i =>
    let inner := (cs.drop (i + 3) |> stripJsonTagCI).dropWhile isJsWs
    match findTripleBacktick inner with
    | none => none
    | some j => some (inner.take j)

/-- Capture group of `/(open[\s\S]*close)\s*$/` for a bracket pair: the
leftmost-greedy match spans from the first opening character to the last
closing character, and exists exactly when only whitespace follows that last
closing character. -/
def spanFirstToLast (cs : List Char) (openC closeC : Char) : Option (List Char) :=
  match cs.findIdx? (fun c => c = openC), (cs.reverse.findIdx? (fun c => c = closeC)) with
  | some i, some jr =>
    let j := cs.length - 1 - jr
    if i < j ∧ (cs.drop (j + 1)).all isJsWs then
      some ((cs.drop i).take (j - i + 1))
    else none
  | _, _ => none

/-- Failure modes of `parseJsonOutput`: the guard for empty output, an
uncaught exception escaping one of the inner `JSON.parse` calls, and the
final `"Python script output was not valid JSON"` error. -/
inductive InvokeErr where
  | emptyOutput
  | jsonThrow (msg : String)
  | notValidJson
deriving Repr, DecidableEq

/-- Last-resort branches of `parseJsonOutput`: the trailing-object regex,
then the trailing-array regex, then the terminal parse error.  An inner
`JSON.parse` failure is not caught and escapes. -/
def tryTrailing (trimmed : List Char) : Except InvokeErr Json :=
  match spanFirstToLast trimmed '\x7b' '\x7d' with
  | some s => (Json.parseL s).mapError InvokeErr.jsonThrow
  | none =>
    match spanFirstToLast trimmed '[' ']' with
    | some s => (Json.parseL s).mapError InvokeErr.jsonThrow
    | none => Except.error InvokeErr.notValidJson

/-- `parseJsonOutput` of `src/scripts/pythonInterop.js` on a character
list: trim; reject empty; parse the whole text; on failure try the fenced
block (skipped when its capture is empty, since `fenced?.[1]` is then
falsy), whose `JSON.parse` failure escapes uncaught; then the trailing
object and trailing array regexes, whose `JSON.parse` failures likewise
escape; otherwise fail with the terminal parse error. -/
def parseJsonOutputL (raw : List Char) : Except InvokeErr Json :=
  let trimmed := jsTrim raw
  if trimmed.isEmpty then Except.error InvokeErr.emptyOutput
  else
    match Json.parseL trimmed with
    | Except.ok v => Except.ok v
    | Except.error _ =>
      match fencedGroup trimmed with
      | some g =>
        if g.isEmpty then tryTrailing trimmed
        else (Json.parseL (jsTrim g)).mapError InvokeErr.jsonThrow
      | none => tryTrailing trimmed

/-- `parseJsonOutput` on a `String`. -/
def parseJsonOutput (raw : String) : Except InvokeErr Json :=
  parseJsonOutputL raw.data

/-! ## `src/scripts/pythonInterop.js` — `runPythonCommand` and `runPythonJson` -/

/-- State observed by the close-event handler of `runPythonCommand`: whether
the timeout fired (the handler killed the child), the exit code and signal
reported by `close`, and the accumulated output streams.  The `code`
argument of `close` is `null` when the child was terminated by a signal, so
it is only meaningful when `signal` is `none`. -/
structure ProcClose where
  timedOut : Bool
  exitCode : Int
  signal : Option String
  stdout : String
  stderr : String

/-- The close-event handler of `runPythonCommand`: a timed-out child rejects
with the timeout error regardless of its exit status, a signalled child
rejects, a non-zero exit rejects with the stderr/stdout detail, and only a
clean exit resolves with the output streams. -/
def closeOutcome (scriptName : String) (timeoutMs : Nat) (st : ProcClose) :
    Except String (String × String) :=
  if st.timedOut then
    Except.error ("Timed out after " ++ toString timeoutMs ++ "ms running " ++ scriptName)
  else
    match st.signal with
    | some sig => Except.error ("Python process terminated by signal " ++ sig)
    | none =>
      if st.exitCode ≠ 0 then
        Except.error (strOr (jsTrimS st.stderr) (strOr (jsTrimS st.stdout)
          (scriptName ++ " failed with exit code " ++ toString st.exitCode)))
      else Except.ok (st.stdout, st.stderr)

/-- An interpreter candidate of `PYTHON_CANDIDATES` (`argsPre` embeds the
source field `argsPrefix`). -/
structure Candidate where
  command : String
  argsPre : List String
deriving Repr, DecidableEq

/-- The prioritized interpreter list `PYTHON_CANDIDATES`. -/
def PYTHON_CANDIDATES : List Candidate :=
  [⟨"python", []⟩, ⟨"python3", []⟩, ⟨"py", ["-3"]⟩]

/-- Outcome of attempting one candidate: a spawn error carrying
`code === "ENOENT"` (interpreter not installed), any other rejection
(non-ENOENT spawn error, non-zero exit, signal, timeout, or a
`parseJsonOutput` failure on the stdout), or parsed JSON output. -/
inductive CandOutcome where
  | enoent (msg : String)
  | failure (msg : String)
  | success (v : Json)

/-- Errors surfaced by `runPythonJson`: a rethrown per-candidate failure,
the last ENOENT error when every candidate was unavailable, and the
unreachable guard message. -/
inductive PyErr where
  | invocation (msg : String)
  | unavailable (msg : String)
  | noInterpreter
deriving Repr, DecidableEq

/-- The candidate loop of `runPythonJson`: ENOENT advances to the next
candidate remembering the error, any other failure is rethrown immediately,
success returns; an exhausted list throws the last ENOENT error. -/
def runPythonLoop (outcomes : List CandOutcome) (lastError : Option String) :
    Except PyErr Json :=
  match outcomes with
  | [] =>
    match lastError with
    | some m => Except.error (PyErr.unavailable m)
    | none => Except.error PyErr.noInterpreter
  | o :: rest =>
    match o with
    | CandOutcome.enoent m => runPythonLoop rest (some m)
    | CandOutcome.failure m => Except.error (PyErr.invocation m)
    | CandOutcome.success v => Except.ok v

/-- `runPythonJson`, driven by an oracle giving each candidate's outcome. -/
def runPythonJson (outcomeOf : Candidate → CandOutcome) : Except PyErr Json :=
  runPythonLoop (PYTHON_CANDIDATES.map outcomeOf) none

/-! ## Orchestrator `run` of `src/unnamed/part_015`

The conceptual-structure reads (`listConceptualUnits`) and the two Python
stages are external invocations; a `RunOracle` fixes the outcome of each of
the (at most four) calls the function can make, errors being carried as
their message strings (every throw site in the code constructs an `Error`
with a message).  The `updatedAt` wall-clock field and the
`mergeCourseIntoClassNames` file write are effects orthogonal to every
claim and are not part of the returned payload model; timeouts and the
batch size only parameterize the external calls already absorbed by the
oracle. -/

/-- Result of a `listConceptualUnits` read, already normalized by that
module (`units` is always an array). -/
structure Conceptual where
  courseId : String
  courseName : String
  units : List Json

/-- Stages a run can invoke, in the observed invocation order. -/
inductive Stage where
  | lookupExisting
  | buildStage
  | tagStage
  | finalLookup
  | fallbackLookup
deriving Repr, DecidableEq

/-- Options of `run` (`courseId`/`courseName` as passed in;
`allowExistingFallback` and `preferExisting` default to `true` as
`options.x !== false` does). -/
structure RunOptions where
  courseId : String
  courseName : String
  allowExistingFallback : Bool := true
  preferExisting : Bool := true

/-- Outcomes of the external calls a run can make.  `buildPlan` carries the
already-coerced `unitsPlan` (`Array.isArray(plan?.units) ? plan.units : []`);
`tagOutcome` carries, on resolution, the tag result's `error` field coerced
to a string with `""` for an absent or falsy field. -/
structure RunOracle where
  initialLookup : Except String Conceptual
  buildPlan : Except String (List Json)
  tagOutcome : Except String String
  finalLookup : Except String Conceptual
  fallbackLookup : Except String Conceptual

/-- Payload returned by `run` (without the unmodelled `updatedAt`). -/
structure Payload where
  courseId : String
  courseName : String
  units : List Json
  warning : Option String := none

/-- The payload built from a conceptual read, as at the short-circuit and
final-read return sites: `conceptual.courseId || courseId`,
`conceptual.courseName || courseName || courseId`, and the units array. -/
def payloadOfConceptual (courseId courseName : String) (c : Conceptual) : Payload :=
  { courseId := strOr c.courseId courseId
    courseName := strOr c.courseName (strOr courseName courseId)
    units := c.units }

/-- The `preferExisting` phase: short-circuit payload when the read
succeeds with at least one unit, recorded lookup error otherwise; returns
the stages invoked. -/
def resolveExisting (preferExisting : Bool) (courseId courseName : String)
    (o : RunOracle) : Option Payload × Option String × List Stage :=
  if preferExisting then
    match o.initialLookup with
    | Except.ok c =>
      if c.units.length > 0 then
        (some (payloadOfConceptual courseId courseName c), none, [Stage.lookupExisting])
      else (none, none, [Stage.lookupExisting])
    | Except.error e => (none, some e, [Stage.lookupExisting])
  else (none, none, [])

/-- The main generation path: build the lesson plan (zero units is the
build failure `"Failed to build a lesson plan (no units)"`), tag the chunks
(a resolved tag result with a truthy `error` field throws it), then read
the final structure; returns the stages invoked by this phase. -/
def generationAttempt (courseId courseName : String) (o : RunOracle) :
    Except String Payload × List Stage :=
  match o.buildPlan with
  | Except.error e => (Except.error e, [Stage.buildStage])
  | Except.ok unitsPlan =>
    if unitsPlan.length = 0 then
      (Except.error "Failed to build a lesson plan (no units)", [Stage.buildStage])
    else
      match o.tagOutcome with
      | Except.error e => (Except.error e, [Stage.buildStage, Stage.tagStage])
      | Except.ok tagErr =>
        if tagErr ≠ "" then
          (Except.error tagErr, [Stage.buildStage, Stage.tagStage])
        else
          match o.finalLookup with
          | Except.error e =>
            (Except.error e, [Stage.buildStage, Stage.tagStage, Stage.finalLookup])
          | Except.ok c =>
            (Except.ok (payloadOfConceptual courseId courseName c),
             [Stage.buildStage, Stage.tagStage, Stage.finalLookup])

/-- The warning parts aggregated in the fallback branch: the recorded
initial lookup error, the generation error, and the fallback read error
when that read failed. -/
def fallbackWarningParts (existingLookupError : Option String) (genErr : String)
    (fallbackError : String) : List String :=
  (match existingLookupError with
   | some e => ["Initial list_units failed: " ++ e]
   | none => []) ++
  [genErr] ++
  (if fallbackError ≠ "" then ["Fallback list_units failed: " ++ fallbackError] else [])

/-- The fallback branch: one more conceptual read (empty payload when it
fails), then a payload carrying the aggregated warning string. -/
def fallbackBranch (courseId courseName : String)
    (existingLookupError : Option String) (genErr : String) (o : RunOracle) : Payload :=
  let (fbPayload, fbError) :=
    match o.fallbackLookup with
    | Except.ok c => (payloadOfConceptual courseId courseName c, "")
    | Except.error e =>
      ({ courseId := courseId, courseName := strOr courseName courseId,
         units := ([] : List Json) }, e)
  { fbPayload with
    warning := some (joinSep (fallbackWarningParts existingLookupError genErr fbError)) }

/-- `run` of the orchestrator module: trimmed-empty course id throws;
otherwise resolve existing structure (short-circuiting on at least one
unit), attempt the generation path, and on its failure either run the
fallback branch (fallback enabled) or rethrow the generation error.  The
second component lists the stages invoked. -/
def run (opts : RunOptions) (o : RunOracle) : Except String Payload × List Stage :=
  let courseId := jsTrimS opts.courseId
  if courseId = "" then (Except.error "Missing courseId", [])
  else
    let courseName := jsTrimS opts.courseName
    match resolveExisting opts.preferExisting courseId courseName o with
    | (some p, _, stages) => (Except.ok p, stages)
    | (none, existingLookupError, stages) =>
      match generationAttempt courseId courseName o with
      | (Except.ok p, genStages) => (Except.ok p, stages ++ genStages)
      | (Except.error genErr, genStages) =>
        if opts.allowExistingFallback then
          (Except.ok (fallbackBranch courseId courseName existingLookupError genErr o),
           stages ++ genStages ++ [Stage.fallbackLookup])
        else (Except.error genErr, stages ++ genStages)

/-! ## Aggregate-state merge — `mergeCourseIntoClassNames` of `src/unnamed/part_015`

The file read/write around the merge is effectful; the pure core mapping
the previously stored `classes` array and the incoming course to the new
`classes` and `classNames` arrays is modelled (`updatedAt` is a wall-clock
field).  The JS spread `{...classes[idx], ...nextEntry}` overwrites all
three modelled fields, `nextEntry` always carrying all of them. -/

/-- One entry of the aggregate `classes` array. -/
structure ClassEntry where
  courseId : String
  className : String
  units : List Json

/-- The incoming course of a merge (`courseName`/`className` as the two
possible name fields of the payload). -/
structure CourseInput where
  courseId : String
  courseName : String
  className : String
  units : List Json

/-- Identity used by the merge's `findIndex`: the stored entry matches when
its `courseId` equals the incoming id or its trimmed `className` equals the
incoming name. -/
def entryMatches (entry : ClassEntry) (courseId className : String) : Bool :=
  entry.courseId = courseId || jsTrimS entry.className = className

/-- The class name the merge computes for the incoming course:
`String(course.courseName || course.className || courseId).trim() || courseId`
with `courseId` already trimmed. -/
def mergedClassName (course : CourseInput) : String :=
  let courseId := jsTrimS course.courseId
  strOr (jsTrimS (strOr course.courseName (strOr course.className courseId))) courseId

/-- Pure core of `mergeCourseIntoClassNames`: normalize the incoming ids,
upsert into `classes` at the first `findIndex` match (else append), and
rebuild `classNames` as the deduplicated nonempty trimmed class names. -/
def mergeCourseIntoClassNames (classes : List ClassEntry) (course : CourseInput) :
    List ClassEntry × List String :=
  let courseId := jsTrimS course.courseId
  let className := mergedClassName course
  let nextEntry : ClassEntry := ⟨courseId, className, course.units⟩
  let updated :=
    match classes.findIdx? (fun entry => entryMatches entry courseId className) with
    | some idx => classes.set idx nextEntry
    | none => classes ++ [nextEntry]
  let classNames :=
    jsSetDedup ((updated.map (fun e => jsTrimS e.className)).filter (fun n => n ≠ ""))
  (updated, classNames)

/-! ## Concepts POST route of `src/unnamed/part_011`

The route triggers `run` for each requested course id via
`Promise.allSettled`; the settled outcomes are the oracle.  The
`writeSelected` file write is an effect orthogonal to the claim. -/

/-- Result shape produced by a fulfilled per-course run. -/
structure CourseRunResult where
  courseId : String
  courseName : String
  className : String
  units : List Json

/-- One settled promise of the batch: fulfilled with a run result, or
rejected with an error message. -/
inductive Settled where
  | fulfilled (value : CourseRunResult)
  | rejected (reason : String)

/-- One entry of the per-course failure breakdown. -/
structure FailedCourse where
  courseId : String
  error : String
deriving Repr, DecidableEq

/-- Responses of the POST handler: 400 for a missing id list, 500 with the
failure breakdown, or 200 carrying the single-course or multi-course
payload plus the (then always empty) `failedCourses` field. -/
inductive ConceptsResponse where
  | badRequest (error : String)
  | failure (error : String) (failedCourses : List FailedCourse)
  | singleOk (courseId courseName : String) (units : List Json)
      (failedCourses : List FailedCourse)
  | multiOk (courses : List (String × String × List Json))
      (failedCourses : List FailedCourse)

/-- The fulfilled value of a settled outcome, when any. -/
def fulfilledValue : Settled → Option CourseRunResult
  | Settled.fulfilled v => some v
  | Settled.rejected _ => none

/-- The breakdown entry contributed by a rejected course. -/
def rejectedEntry (p : String × Settled) : Option FailedCourse :=
  match p.2 with
  | Settled.rejected m => some ⟨p.1, m⟩
  | Settled.fulfilled _ => none

/-- The breakdown entry contributed by a fulfilled course with no units. -/
def emptyUnitsEntry (p : String × Settled) : Option FailedCourse :=
  match p.2 with
  | Settled.fulfilled v =>
    if v.units.isEmpty then some ⟨v.courseId, "No conceptual units returned yet"⟩
    else none
  | Settled.rejected _ => none

/-- The failed-courses list the handler accumulates: each rejected course
with its reason, then each fulfilled course whose units array is empty. -/
def collectFailedCourses (pairs : List (String × Settled)) : List FailedCourse :=
  pairs.filterMap rejectedEntry ++ pairs.filterMap emptyUnitsEntry

/-- The selected course for one requested id on the all-success path:
the generated result (`new Map` keeps the last occurrence per id) with the
client-supplied class name override, or an empty placeholder. -/
def selectCourse (nameByCourseId : String → String)
    (courses : List CourseRunResult) (id : String) : CourseRunResult :=
  match (courses.reverse.find? (fun c => c.courseId = id)) with
  | some g =>
    { g with
      className := strOr (nameByCourseId id) (strOr g.className (strOr g.courseName id)) }
  | none =>
    { courseId := id, courseName := strOr (nameByCourseId id) id,
      className := strOr (nameByCourseId id) id, units := [] }

/-- The POST handler on the settled per-course outcomes (`pairs` lists the
requested course ids with their settled run, `nameByCourseId` models the
client-supplied name map with `""` for absent): empty request is a 400; any
entry in the failed-courses list yields the 500 breakdown response; the
success response returns the selected courses with the (empty)
`failedCourses` list, single-course form for exactly one id. -/
def postConcepts (pairs : List (String × Settled)) (nameByCourseId : String → String) :
    ConceptsResponse :=
  if pairs.isEmpty then ConceptsResponse.badRequest "Missing courseId or courseIds"
  else
    let courses := pairs.filterMap (fun p => fulfilledValue p.2)
    let failedCourses := collectFailedCourses pairs
    if failedCourses.isEmpty then
      let selected := (pairs.map (fun p => p.1)).map (selectCourse nameByCourseId courses)
      match selected with
      | [c] => ConceptsResponse.singleOk c.courseId c.courseName c.units failedCourses
      | _ =>
        ConceptsResponse.multiOk
          (selected.map (fun c => (c.courseId, c.courseName, c.units))) failedCourses
    else
      ConceptsResponse.failure
        "Concept preparation is still in progress or failed for one or more courses"
        failedCourses

/-! ## Content acquisition — `src/scripts/getCanvas.js`

`canvasGet`/`getAllPages` perform HTTP; an oracle gives the outcome of each
paginated fetch, errors carrying the `status` property set on the thrown
error for non-OK responses (absent for transport errors). -/

/-- Error thrown by `canvasGet`: HTTP status (when a response arrived) and
message. -/
structure HttpErr where
  status : Option Nat
  msg : String
deriving Repr, DecidableEq

/-- A course row from the course-list endpoint (`workflowState = ""` models
an absent `workflow_state`, which is falsy and passes the filter). -/
structure CanvasCourse where
  id : String
  name : String
  workflowState : String
deriving Repr, DecidableEq

/-- Outcomes of the paginated fetches `fetchCanvasData` performs. -/
structure CanvasOracle where
  coursesPrimary : Except HttpErr (List CanvasCourse)
  coursesBare : Except HttpErr (List CanvasCourse)
  assignments : String → Except HttpErr (List Json)
  files : String → Except HttpErr (List Json)

/-- The access-error statuses `safeGetAllPages` swallows. -/
def isAccessError (e : HttpErr) : Bool :=
  e.status = some 401 || e.status = some 403 || e.status = some 404

/-- `safeGetAllPages`: an access error on the endpoint becomes an empty
list; any other error is rethrown. -/
def safeGetAllPages (r : Except HttpErr (List Json)) : Except HttpErr (List Json) :=
  match r with
  | Except.ok l => Except.ok l
  | Except.error e => if isAccessError e then Except.ok [] else Except.error e

/-- The per-course loop of `fetchCanvasData`: fetch assignments and files
through `safeGetAllPages` (a non-access error on either rejects the whole
run), and record the course when either list is nonempty and its trimmed
name is nonempty. -/
def collectClasses (o : CanvasOracle) : List CanvasCourse →
    Except HttpErr (List (String × String))
  | [] => Except.ok []
  | c :: rest =>
    match safeGetAllPages (o.assignments c.id), safeGetAllPages (o.files c.id) with
    | Except.ok assignments, Except.ok files =>
      let here :=
        if assignments.length > 0 || files.length > 0 then
          let name := jsTrimS c.name
          if name.length > 0 then [(c.id, name)] else []
        else []
      (collectClasses o rest).map (fun tail => here ++ tail)
    | Except.error e, _ => Except.error e
    | _, Except.error e => Except.error e

/-- The `seen`-set pass of `fetchCanvasData`, with the seen ids explicit:
keep the first entry per course id. -/
def uniqueByCourseIdAux (seen : List String) : List (String × String) →
    List (String × String)
  | [] => []
  | c :: rest =>
    if seen.contains c.1 then uniqueByCourseIdAux seen rest
    else c :: uniqueByCourseIdAux (c.1 :: seen) rest

/-- The `seen`-set pass of `fetchCanvasData`: keep the first entry per
course id. -/
def uniqueByCourseId (l : List (String × String)) : List (String × String) :=
  uniqueByCourseIdAux [] l

/-- `fetchCanvasData`: fetch the course list (the bare retry when the
filtered fetch returns no courses) — an error here rejects the run; filter
to active workflow states; collect per-course classes with skip-on-access-
error secondary endpoints; deduplicate by course id. -/
def fetchCanvasData (o : CanvasOracle) :
    Except HttpErr (List (String × String) × List String) :=
  match o.coursesPrimary with
  | Except.error e => Except.error e
  | Except.ok cs0 =>
    match (if cs0.length = 0 then o.coursesBare else Except.ok cs0) with
    | Except.error e => Except.error e
    | Except.ok courses =>
      let activeCourses := courses.filter (fun c =>
        c.workflowState = "" || c.workflowState = "available" || c.workflowState = "completed")
      match collectClasses o activeCourses with
      | Except.error e => Except.error e
      | Except.ok classesWithIds =>
        let unique := uniqueByCourseId classesWithIds
        Except.ok (unique, unique.map (fun c => c.2))

/-! ## Legacy concept read — `getConceptualUnits` of `src/server.js`
and `src/unnamed/part_011`

The `spawnSync` call is the oracle (`error` models a truthy `result.error`,
`status` the exit code, `stdout` the captured output).  The route-level
argument can be a non-string value, so the input id is a `Json`. -/

/-- Observed `spawnSync` result. -/
structure SpawnResult where
  error : Bool
  status : Int
  stdout : String

/-- Result of `getConceptualUnits` (the `courseId` field can carry a
non-string value read off the parsed payload or the raw input). -/
structure LegacyConceptual where
  courseId : Json
  courseName : String
  units : List Json

/-- `getConceptualUnits`: a falsy or non-string course id returns the
empty-units result immediately; a spawn error or non-zero exit returns it;
otherwise parse the trimmed stdout — empty output, a parse failure, or any
shape other than an object with a `units` array or a bare array returns it;
the two well-shaped forms populate the fields (`parsed.courseId ??
courseId.trim()`, string `courseName` or `""`). -/
def getConceptualUnits (courseId : Json) (spawn : SpawnResult) : LegacyConceptual :=
  match courseId with
  | Json.str s =>
    if s = "" then ⟨Json.str "", "", []⟩
    else
      let trimmedId := jsTrimS s
      if spawn.error || spawn.status ≠ 0 then ⟨Json.str trimmedId, "", []⟩
      else
        let out := jsTrimS spawn.stdout
        if out = "" then ⟨Json.str trimmedId, "", []⟩
        else
          match Json.parse out with
          | Except.error _ => ⟨Json.str trimmedId, "", []⟩
          | Except.ok p =>
            match p with
            | Json.obj _ =>
              match Json.getField p "units" with
              | some (Json.arr us) =>
                ⟨(match Json.getField p "courseId" with
                  | some Json.null => Json.str trimmedId
                  | some v => v
                  | none => Json.str trimmedId),
                 (match Json.getField p "courseName" with
                  | some (Json.str n) => n
                  | _ => ""),
                 us⟩
              | _ => ⟨Json.str trimmedId, "", []⟩
            | Json.arr us => ⟨Json.str trimmedId, "", us⟩
            | _ => ⟨Json.str trimmedId, "", []⟩
  | other => ⟨if jsTruthy other then other else Json.str "", "", []⟩

/-! ## Helper lemmas -/

/-- A string of positive length is nonempty. -/
theorem string_length_pos_iff (s : String) : 0 < s.length ↔ s ≠ "" := by
  cases s with
  | mk data =>
    simp [String.length, List.length_pos_iff_ne_nil, String.ext_iff]

/-- `joinSep` of a nonempty list is a nonempty string unless it is the
singleton of the empty string. -/
theorem joinSep_cons_ne_empty (x : String) (rest : List String)
    (h : x ≠ "" ∨ rest ≠ []) : joinSep (x :: rest) ≠ "" := by
  cases rest with
  | nil =>
    have hx : x ≠ "" := by
      rcases h with h | h
      · exact h
      · exact absurd rfl h
    simpa [joinSep] using hx
  | cons y ys =>
    simp only [joinSep]
    intro hEq
    have hlen := congrArg String.length hEq
    have hsep : String.length " | " = 3 := rfl
    have hnil : String.length "" = 0 := rfl
    simp only [String.length_append, hsep, hnil] at hlen
    omega

/-- `joinSep` of the fallback warning parts is nonempty whenever the
generation error message is. -/
theorem joinSep_warning_ne_empty (elo : Option String) (genErr fbErr : String)
    (h : genErr ≠ "") : joinSep (fallbackWarningParts elo genErr fbErr) ≠ "" := by
  cases elo with
  | none => exact joinSep_cons_ne_empty genErr _ (Or.inl h)
  | some e =>
    exact joinSep_cons_ne_empty _ (genErr :: _) (Or.inr (List.cons_ne_nil _ _))

/-- The existing-resolution phase only ever invokes the existing-structure
lookup. -/
theorem resolveExisting_stages (pref : Bool) (cid cname : String) (o : RunOracle) :
    (resolveExisting pref cid cname o).2.2 = [] ∨
    (resolveExisting pref cid cname o).2.2 = [Stage.lookupExisting] := by
  unfold resolveExisting
  split
  · match h : o.initialLookup with
    | Except.ok c =>
      by_cases hu : c.units.length > 0 <;> simp [h, hu]
    | Except.error e => simp [h]
  · simp

/-- `findIdx?` finds nothing exactly on predicates false everywhere. -/
theorem findIdx?_eq_none_of_all_false {α : Type} (p : α → Bool) (l : List α)
    (h : ∀ a ∈ l, p a = false) : l.findIdx? p = none := by
  induction l with
  | nil => rfl
  | cons x xs ih =>
    have hx := h x (List.mem_cons_self _ _)
    rw [List.findIdx?_cons, hx]
    simp [ih (fun a ha => h a (List.mem_cons_of_mem _ ha))]

/-! ## Claim C5 -/

/-- C5: the executor tries the backend candidates in priority order
(`python`, `python3`, `py -3`); an ENOENT spawn failure advances to the
next candidate, any other failure is surfaced immediately without trying
further candidates, and when every candidate is unavailable the last
unavailability error is thrown. -/
theorem claim_C5_candidates (f : Candidate → CandOutcome) :
    (∀ v, f ⟨"python", []⟩ = CandOutcome.success v →
      runPythonJson f = Except.ok v) ∧
    (∀ m, f ⟨"python", []⟩ = CandOutcome.failure m →
      runPythonJson f = Except.error (PyErr.invocation m)) ∧
    (∀ m v, f ⟨"python", []⟩ = CandOutcome.enoent m →
      f ⟨"python3", []⟩ = CandOutcome.success v →
      runPythonJson f = Except.ok v) ∧
    (∀ m m2, f ⟨"python", []⟩ = CandOutcome.enoent m →
      f ⟨"python3", []⟩ = CandOutcome.failure m2 →
      runPythonJson f = Except.error (PyErr.invocation m2)) ∧
    (∀ m m2 v, f ⟨"python", []⟩ = CandOutcome.enoent m →
      f ⟨"python3", []⟩ = CandOutcome.enoent m2 →
      f ⟨"py", ["-3"]⟩ = CandOutcome.success v →
      runPythonJson f = Except.ok v) ∧
    (∀ m m2 m3, f ⟨"python", []⟩ = CandOutcome.enoent m →
      f ⟨"python3", []⟩ = CandOutcome.enoent m2 →
      f ⟨"py", ["-3"]⟩ = CandOutcome.failure m3 →
      runPythonJson f = Except.error (PyErr.invocation m3)) ∧
    (∀ m m2 m3, f ⟨"python", []⟩ = CandOutcome.enoent m →
      f ⟨"python3", []⟩ = CandOutcome.enoent m2 →
      f ⟨"py", ["-3"]⟩ = CandOutcome.enoent m3 →
      runPythonJson f = Except.error (PyErr.unavailable m3)) := by
  refine ⟨?_, ?_, ?_, ?_, ?_, ?_, ?_⟩ <;>
    intros <;>
    simp_all [runPythonJson, PYTHON_CANDIDATES, runPythonLoop]

/-- C5 witness: a concrete outcome assignment where `python` is missing and
`python3` fails hard; the failure is surfaced without reaching `py -3`. -/
theorem claim_C5_candidates_witness :
    runPythonJson (fun c =>
      if c.command = "python" then CandOutcome.enoent "spawn python ENOENT"
      else if c.command = "python3" then CandOutcome.failure "boom"
      else CandOutcome.success Json.null) =
    Except.error (PyErr.invocation "boom") :=
  (claim_C5_candidates _).2.2.2.1 "spawn python ENOENT" "boom" rfl rfl

/-! ## Claim C6 -/

/-- C6: the close handler of a bounded invocation rejects with the timeout
error whenever the timeout fired, regardless of any partial stdout, and
resolves only on a clean exit: no timeout, no terminating signal, exit code
zero, with exactly the accumulated streams. -/
theorem claim_C6_timeout (scriptName : String) (timeoutMs : Nat) (st : ProcClose) :
    (st.timedOut = true →
      closeOutcome scriptName timeoutMs st =
        Except.error ("Timed out after " ++ toString timeoutMs ++ "ms running " ++ scriptName)) ∧
    (∀ out err, closeOutcome scriptName timeoutMs st = Except.ok (out, err) →
      st.timedOut = false ∧ st.signal = none ∧ st.exitCode = 0 ∧
      out = st.stdout ∧ err = st.stderr) := by
  constructor
  · intro ht
    simp [closeOutcome, ht]
  · intro out err hok
    unfold closeOutcome at hok
    by_cases ht : st.timedOut
    · simp [ht] at hok
    · simp only [ht, if_false, Bool.false_eq_true] at hok
      match hsig : st.signal with
      | some sig => rw [hsig] at hok; exact absurd hok (by simp)
      | none =>
        rw [hsig] at hok
        by_cases hc : st.exitCode ≠ 0
        · simp [hc] at hok
        · simp only [hc, if_false] at hok
          simp only [Except.ok.injEq, Prod.mk.injEq] at hok
          exact ⟨by simpa using ht, rfl, by omega, hok.1.symm, hok.2.symm⟩

/-- C6 witness: a timed-out process with partial stdout rejects with the
timeout message, and a clean exit resolves. -/
theorem claim_C6_timeout_witness :
    closeOutcome "tag_chunks.py" 600000 ⟨true, 0, none, "partial", ""⟩ =
      Except.error "Timed out after 600000ms running tag_chunks.py" ∧
    (closeOutcome "tag_chunks.py" 600000 ⟨false, 0, none, "out", "err"⟩ = Except.ok ("out", "err") →
      (⟨false, 0, none, "out", "err"⟩ : ProcClose).exitCode = 0) := by
  constructor
  · exact (claim_C6_timeout "tag_chunks.py" 600000 ⟨true, 0, none, "partial", ""⟩).1 rfl
  · intro hok
    exact ((claim_C6_timeout "tag_chunks.py" 600000 ⟨false, 0, none, "out", "err"⟩).2 "out" "err" hok).2.2.1

/-! ## Claim C7 -/

/-- C7: when the prefer-existing read returns at least one unit, the run
returns the payload built from that existing structure and neither the
taxonomy-build stage nor the tagging stage is ever invoked. -/
theorem claim_C7_preferExisting (opts : RunOptions) (o : RunOracle) (c : Conceptual)
    (hid : jsTrimS opts.courseId ≠ "") (hpref : opts.preferExisting = true)
    (hlook : o.initialLookup = Except.ok c) (hunits : c.units ≠ []) :
    run opts o =
      (Except.ok (payloadOfConceptual (jsTrimS opts.courseId) (jsTrimS opts.courseName) c),
       [Stage.lookupExisting]) ∧
    Stage.buildStage ∉ (run opts o).2 ∧ Stage.tagStage ∉ (run opts o).2 := by
  have hlen : c.units.length > 0 := List.length_pos.mpr hunits
  have hrun : run opts o =
      (Except.ok (payloadOfConceptual (jsTrimS opts.courseId) (jsTrimS opts.courseName) c),
       [Stage.lookupExisting]) := by
    unfold run resolveExisting
    simp [hid, hpref, hlook, hlen]
  refine ⟨hrun, ?_, ?_⟩ <;> rw [hrun] <;> simp

/-- C7 witness: a concrete oracle whose existing read returns one unit
short-circuits without touching the build or tag stages. -/
theorem claim_C7_preferExisting_witness :
    run { courseId := "c1", courseName := "" }
        { initialLookup := Except.ok ⟨"c1", "Bio", [Json.str "u1"]⟩
          buildPlan := Except.error "not reached"
          tagOutcome := Except.error "not reached"
          finalLookup := Except.error "not reached"
          fallbackLookup := Except.error "not reached" } =
      (Except.ok (payloadOfConceptual "c1" "" ⟨"c1", "Bio", [Json.str "u1"]⟩),
       [Stage.lookupExisting]) := by
  have h := claim_C7_preferExisting { courseId := "c1", courseName := "" }
    { initialLookup := Except.ok ⟨"c1", "Bio", [Json.str "u1"]⟩
      buildPlan := Except.error "not reached"
      tagOutcome := Except.error "not reached"
      finalLookup := Except.error "not reached"
      fallbackLookup := Except.error "not reached" }
    ⟨"c1", "Bio", [Json.str "u1"]⟩ (by decide) rfl rfl (by simp)
  exact h.1

/-- Unfolding of `run` past a non-short-circuiting resolution phase. -/
theorem run_eq_of_fallthrough (opts : RunOptions) (o : RunOracle)
    (elo : Option String) (rstages : List Stage)
    (gr : Except String Payload) (gstages : List Stage)
    (hid : jsTrimS opts.courseId ≠ "")
    (hres : resolveExisting opts.preferExisting (jsTrimS opts.courseId)
      (jsTrimS opts.courseName) o = (none, elo, rstages))
    (hgenEq : generationAttempt (jsTrimS opts.courseId) (jsTrimS opts.courseName) o
      = (gr, gstages)) :
    run opts o =
      (match gr with
       | Except.ok p => (Except.ok p, rstages ++ gstages)
       | Except.error genErr =>
         if opts.allowExistingFallback then
           (Except.ok (fallbackBranch (jsTrimS opts.courseId) (jsTrimS opts.courseName)
              elo genErr o),
            rstages ++ gstages ++ [Stage.fallbackLookup])
         else (Except.error genErr, rstages ++ gstages)) := by
  unfold run
  simp only [hid, if_neg, ite_false, hres, hgenEq]
  match gr with
  | Except.ok p => simp
  | Except.error genErr => simp

/-! ## Claim C1 -/

/-- C1: when the main path fails (the generation attempt — build, tag, or
final read-back — errors after a non-short-circuiting resolution phase)
and fallback is enabled, the run resolves with a payload whose units are
the result of one more existing-structure read (empty when that read
fails) and whose warning is a single nonempty string aggregating every
failure recorded along the way; with fallback disabled the main-path error
propagates.  (Every throw site in the code carries a nonempty message,
reflected by the nonemptiness hypothesis on the generation error.) -/
theorem claim_C1_fallback (opts : RunOptions) (o : RunOracle) (genErr : String)
    (hid : jsTrimS opts.courseId ≠ "")
    (hshort : (resolveExisting opts.preferExisting (jsTrimS opts.courseId)
      (jsTrimS opts.courseName) o).1 = none)
    (hgen : (generationAttempt (jsTrimS opts.courseId) (jsTrimS opts.courseName) o).1
      = Except.error genErr)
    (hne : genErr ≠ "") :
    (opts.allowExistingFallback = true →
      ∃ p, (run opts o).1 = Except.ok p ∧
        p.units = (match o.fallbackLookup with
                   | Except.ok c => c.units
                   | Except.error _ => []) ∧
        ∃ w, p.warning = some w ∧ w ≠ "" ∧
          w = joinSep (fallbackWarningParts
                (resolveExisting opts.preferExisting (jsTrimS opts.courseId)
                  (jsTrimS opts.courseName) o).2.1 genErr
                (match o.fallbackLookup with
                 | Except.ok _ => ""
                 | Except.error e => e))) ∧
    (opts.allowExistingFallback = false → (run opts o).1 = Except.error genErr) := by
  rcases hres : resolveExisting opts.preferExisting (jsTrimS opts.courseId)
    (jsTrimS opts.courseName) o with ⟨s, elo, rstages⟩
  rw [hres] at hshort
  cases hshort
  rcases hgenEq : generationAttempt (jsTrimS opts.courseId) (jsTrimS opts.courseName) o
    with ⟨gr, gstages⟩
  rw [hgenEq] at hgen
  cases hgen
  have hrun := run_eq_of_fallthrough opts o elo rstages (Except.error genErr) gstages
    hid hres hgenEq
  constructor
  · intro hfb
    rw [hfb] at hrun
    simp only [if_true] at hrun
    refine ⟨fallbackBranch (jsTrimS opts.courseId) (jsTrimS opts.courseName) elo genErr o,
      by rw [hrun], ?_, ?_⟩
    · unfold fallbackBranch
      match hfl : o.fallbackLookup with
      | Except.ok c => simp [payloadOfConceptual]
      | Except.error e => simp
    · refine ⟨joinSep (fallbackWarningParts elo genErr
        (match o.fallbackLookup with
         | Except.ok _ => ""
         | Except.error e => e)), ?_, ?_, rfl⟩
      · unfold fallbackBranch
        match hfl : o.fallbackLookup with
        | Except.ok c => simp
        | Except.error e => simp
      · exact joinSep_warning_ne_empty elo genErr _ hne
  · intro hfb
    rw [hfb] at hrun
    simp only [if_false, Bool.false_eq_true, ite_false] at hrun
    rw [hrun]

/-- C1 witness: a concrete run where the initial lookup, the build (zero
units), and the fallback read all fail; with fallback enabled the run still
resolves, with empty units and a nonempty aggregated warning. -/
theorem claim_C1_fallback_witness :
    ∃ p, (run { courseId := "c1", courseName := "", allowExistingFallback := true,
                preferExisting := true }
            { initialLookup := Except.error "lookup boom"
              buildPlan := Except.ok []
              tagOutcome := Except.ok ""
              finalLookup := Except.ok ⟨"", "", []⟩
              fallbackLookup := Except.error "fb boom" }).1 = Except.ok p ∧
      p.units = [] ∧ ∃ w, p.warning = some w ∧ w ≠ "" := by
  obtain ⟨p, h1, h2, w, h3, h4, h5⟩ :=
    (claim_C1_fallback
      { courseId := "c1", courseName := "", allowExistingFallback := true,
        preferExisting := true }
      { initialLookup := Except.error "lookup boom"
        buildPlan := Except.ok []
        tagOutcome := Except.ok ""
        finalLookup := Except.ok ⟨"", "", []⟩
        fallbackLookup := Except.error "fb boom" }
      "Failed to build a lesson plan (no units)"
      (by decide) rfl rfl (by decide)).1 rfl
  exact ⟨p, h1, h2, w, h3, h4⟩

/-- `run` with a trimmed-empty course id throws before invoking anything. -/
theorem run_eq_of_emptyId (opts : RunOptions) (o : RunOracle)
    (hid : jsTrimS opts.courseId = "") :
    run opts o = (Except.error "Missing courseId", []) := by
  unfold run
  simp [hid]

/-- Stage shapes of the generation attempt: it stops at the build stage
(build error or zero units), or the build succeeded with a nonempty plan
and it went on to tagging and possibly the final read. -/
theorem generationAttempt_cases (cid cname : String) (o : RunOracle) :
    (generationAttempt cid cname o).2 = [Stage.buildStage] ∨
    ((∃ us, o.buildPlan = Except.ok us ∧ us ≠ []) ∧
      ((generationAttempt cid cname o).2 = [Stage.buildStage, Stage.tagStage] ∨
       (generationAttempt cid cname o).2
         = [Stage.buildStage, Stage.tagStage, Stage.finalLookup])) := by
  unfold generationAttempt
  match hb : o.buildPlan with
  | Except.error e => left; rfl
  | Except.ok us =>
    by_cases hz : us.length = 0
    · left; simp [hz]
    · right
      refine ⟨⟨us, rfl, fun hnil => hz (by rw [hnil]; rfl)⟩, ?_⟩
      match ht : o.tagOutcome with
      | Except.error e => left; simp [hz]
      | Except.ok te =>
        by_cases hte : te ≠ ""
        · left; simp [hz, hte]
        · match hf : o.finalLookup with
          | Except.error e => right; simp [hz, hte]
          | Except.ok c => right; simp [hz, hte]

/-! ## Claim C8 -/

/-- C8: a taxonomy-build result with zero units is a build failure: the
generation attempt errors with `"Failed to build a lesson plan (no
units)"`, tagging is never invoked, and the failure aborts the main path —
propagating when fallback is disabled, routing to the fallback payload
when enabled; moreover, over every oracle, the tag stage runs only after a
build stage that returned a nonempty plan. -/
theorem claim_C8_buildFailure :
    (∀ (opts : RunOptions) (o : RunOracle),
      jsTrimS opts.courseId ≠ "" →
      (resolveExisting opts.preferExisting (jsTrimS opts.courseId)
        (jsTrimS opts.courseName) o).1 = none →
      o.buildPlan = Except.ok [] →
      generationAttempt (jsTrimS opts.courseId) (jsTrimS opts.courseName) o
        = (Except.error "Failed to build a lesson plan (no units)", [Stage.buildStage]) ∧
      Stage.tagStage ∉ (run opts o).2 ∧
      (opts.allowExistingFallback = false →
        (run opts o).1 = Except.error "Failed to build a lesson plan (no units)") ∧
      (opts.allowExistingFallback = true →
        ∃ p, (run opts o).1 = Except.ok p ∧ p.warning ≠ none)) ∧
    (∀ (opts : RunOptions) (o : RunOracle),
      Stage.tagStage ∈ (run opts o).2 →
      Stage.buildStage ∈ (run opts o).2 ∧
      ∃ us, o.buildPlan = Except.ok us ∧ us ≠ []) := by
  constructor
  · intro opts o hid hshort hbuild
    rcases hres : resolveExisting opts.preferExisting (jsTrimS opts.courseId)
      (jsTrimS opts.courseName) o with ⟨s, elo, rstages⟩
    rw [hres] at hshort
    cases hshort
    have hrst := resolveExisting_stages opts.preferExisting (jsTrimS opts.courseId)
      (jsTrimS opts.courseName) o
    rw [hres] at hrst
    replace hrst : rstages = [] ∨ rstages = [Stage.lookupExisting] := hrst
    have hgenEq : generationAttempt (jsTrimS opts.courseId) (jsTrimS opts.courseName) o
        = (Except.error "Failed to build a lesson plan (no units)", [Stage.buildStage]) := by
      unfold generationAttempt
      rw [hbuild]
      rfl
    have hrun := run_eq_of_fallthrough opts o elo rstages
      (Except.error "Failed to build a lesson plan (no units)") [Stage.buildStage]
      hid hres hgenEq
    refine ⟨hgenEq, ?_, ?_, ?_⟩
    · by_cases hfb : opts.allowExistingFallback = true
      · rw [hfb] at hrun
        simp only [if_true] at hrun
        rw [hrun]
        rcases hrst with h1 | h1 <;> rw [h1] <;> simp
      · rw [Bool.not_eq_true] at hfb
        rw [hfb] at hrun
        simp only [Bool.false_eq_true, if_false] at hrun
        rw [hrun]
        rcases hrst with h1 | h1 <;> rw [h1] <;> simp
    · intro hfb
      rw [hfb] at hrun
      simp only [Bool.false_eq_true, if_false] at hrun
      rw [hrun]
    · intro hfb
      rw [hfb] at hrun
      simp only [if_true] at hrun
      refine ⟨fallbackBranch (jsTrimS opts.courseId) (jsTrimS opts.courseName) elo
        "Failed to build a lesson plan (no units)" o, by rw [hrun], ?_⟩
      unfold fallbackBranch
      match hfl : o.fallbackLookup with
      | Except.ok c => simp
      | Except.error e => simp
  · intro opts o htag
    by_cases hid : jsTrimS opts.courseId = ""
    · rw [run_eq_of_emptyId opts o hid] at htag
      simp at htag
    · rcases hres : resolveExisting opts.preferExisting (jsTrimS opts.courseId)
        (jsTrimS opts.courseName) o with ⟨s, elo, rstages⟩
      have hrst := resolveExisting_stages opts.preferExisting (jsTrimS opts.courseId)
        (jsTrimS opts.courseName) o
      rw [hres] at hrst
      replace hrst : rstages = [] ∨ rstages = [Stage.lookupExisting] := hrst
      cases s with
      | some p =>
        have hrun : run opts o = (Except.ok p, rstages) := by
          unfold run
          simp [hid, hres]
        rw [hrun] at htag
        rcases hrst with h1 | h1 <;> rw [h1] at htag <;> simp at htag
      | none =>
        rcases hgenEq : generationAttempt (jsTrimS opts.courseId)
          (jsTrimS opts.courseName) o with ⟨gr, gstages⟩
        have hrun := run_eq_of_fallthrough opts o elo rstages gr gstages hid hres hgenEq
        have hgc := generationAttempt_cases (jsTrimS opts.courseId)
          (jsTrimS opts.courseName) o
        rw [hgenEq] at hgc
        replace hgc : gstages = [Stage.buildStage] ∨
            ((∃ us, o.buildPlan = Except.ok us ∧ us ≠ []) ∧
              (gstages = [Stage.buildStage, Stage.tagStage] ∨
               gstages = [Stage.buildStage, Stage.tagStage, Stage.finalLookup])) := hgc
        have hstage2 : (run opts o).2 = rstages ++ gstages ∨
            (run opts o).2 = rstages ++ gstages ++ [Stage.fallbackLookup] := by
          rw [hrun]
          match gr with
          | Except.ok p => left; rfl
          | Except.error e =>
            by_cases hfb : opts.allowExistingFallback = true
            · right; simp [hfb]
            · left
              rw [Bool.not_eq_true] at hfb
              simp [hfb]
        have htag' : Stage.tagStage ∈ gstages := by
          rcases hstage2 with h2 | h2 <;> rw [h2] at htag <;>
            rcases hrst with h1 | h1 <;> rw [h1] at htag <;>
              simpa [List.mem_append] using htag
        rcases hgc with hg1 | ⟨hex, hg2⟩
        · rw [hg1] at htag'
          simp at htag'
        · refine ⟨?_, hex⟩
          have hbmem : Stage.buildStage ∈ gstages := by
            rcases hg2 with h2 | h2 <;> rw [h2] <;> simp
          rcases hstage2 with h2 | h2 <;> rw [h2] <;>
            simp [List.mem_append, hbmem]

/-- C8 witness: a concrete oracle whose build returns zero units; the run
with fallback disabled rethrows the build failure and never tags. -/
theorem claim_C8_buildFailure_witness :
    (run { courseId := "c1", courseName := "", allowExistingFallback := false,
           preferExisting := false }
        { initialLookup := Except.error "unused"
          buildPlan := Except.ok []
          tagOutcome := Except.error "not reached"
          finalLookup := Except.error "not reached"
          fallbackLookup := Except.error "not reached" }).1
      = Except.error "Failed to build a lesson plan (no units)" ∧
    Stage.tagStage ∉
      (run { courseId := "c1", courseName := "", allowExistingFallback := false,
             preferExisting := false }
          { initialLookup := Except.error "unused"
            buildPlan := Except.ok []
            tagOutcome := Except.error "not reached"
            finalLookup := Except.error "not reached"
            fallbackLookup := Except.error "not reached" }).2 := by
  have h := claim_C8_buildFailure.1
    { courseId := "c1", courseName := "", allowExistingFallback := false,
      preferExisting := false }
    { initialLookup := Except.error "unused"
      buildPlan := Except.ok []
      tagOutcome := Except.error "not reached"
      finalLookup := Except.error "not reached"
      fallbackLookup := Except.error "not reached" }
    (by decide) rfl rfl
  exact ⟨h.2.2.1 rfl, h.2.1⟩

/-- `findIdx?` finds nothing iff the predicate is false on every element
(stated for every start index of the accumulator form). -/
theorem findIdx?_none_iff_all_false {α : Type} (p : α → Bool) (l : List α) :
    ∀ i, l.findIdx? p i = none ↔ ∀ a ∈ l, p a = false := by
  induction l with
  | nil => intro i; simp
  | cons x xs ih =>
    intro i
    rw [List.findIdx?_cons]
    by_cases hx : p x
    · simp [hx]
    · rw [if_neg (by simpa using hx)]
      constructor
      · intro h a ha
        rcases List.mem_cons.mp ha with rfl | ha2
        · simpa using hx
        · exact (ih (i + 1)).mp h a ha2
      · intro h
        exact (ih (i + 1)).mpr (fun a ha => h a (List.mem_cons_of_mem _ ha))

/-! ## Claim C3 -/

/-- C3 counterexample: merging courses with the distinct ids `"1"` and
`"2"` but the shared class name `"Bio"` collapses them into a single
entry (the second merge matched the first entry by class name even though
both courses carry course ids), contradicting the claim that two courses
with distinct courseIds never collapse. -/
theorem claim_C3_counterexample :
    (mergeCourseIntoClassNames
       (mergeCourseIntoClassNames [] ⟨"1", "Bio", "", [Json.str "A"]⟩).1
       ⟨"2", "Bio", "", [Json.str "B"]⟩).1.length = 1 ∧
    (mergeCourseIntoClassNames
       (mergeCourseIntoClassNames [] ⟨"1", "Bio", "", [Json.str "A"]⟩).1
       ⟨"2", "Bio", "", [Json.str "B"]⟩).1.map (fun e => (e.courseId, e.className))
      = [("2", "Bio")] :=
  ⟨rfl, rfl⟩

/-- C3 amended: the upsert identity is the disjunction "same `courseId` or
same trimmed `className`" — not `courseId` with a name fallback only when
the id is absent — so the entry count grows exactly when no stored entry
matches either component; the spec's same-id example still merges into one
entry with the updated units and a single `"Bio"` class name. -/
theorem claim_C3_amended :
    ((mergeCourseIntoClassNames
        (mergeCourseIntoClassNames [] ⟨"1", "Bio", "", [Json.str "A"]⟩).1
        ⟨"1", "Bio", "", [Json.str "A", Json.str "B"]⟩).1.map
          (fun e => (e.courseId, e.className, e.units.length)) = [("1", "Bio", 2)] ∧
     (mergeCourseIntoClassNames
        (mergeCourseIntoClassNames [] ⟨"1", "Bio", "", [Json.str "A"]⟩).1
        ⟨"1", "Bio", "", [Json.str "A", Json.str "B"]⟩).2 = ["Bio"]) ∧
    (∀ (classes : List ClassEntry) (course : CourseInput),
      (mergeCourseIntoClassNames classes course).1.length =
        (if classes.any (fun e =>
             entryMatches e (jsTrimS course.courseId) (mergedClassName course))
         then classes.length else classes.length + 1)) ∧
    (∀ (classes : List ClassEntry) (course : CourseInput),
      (∀ e ∈ classes,
        entryMatches e (jsTrimS course.courseId) (mergedClassName course) = false) →
      (mergeCourseIntoClassNames classes course).1 =
        classes ++ [⟨jsTrimS course.courseId, mergedClassName course, course.units⟩]) := by
  refine ⟨⟨rfl, rfl⟩, ?_, ?_⟩
  · intro classes course
    unfold mergeCourseIntoClassNames
    match hidx : classes.findIdx?
        (fun e => entryMatches e (jsTrimS course.courseId) (mergedClassName course)) with
    | some idx =>
      have hany : classes.any (fun e =>
          entryMatches e (jsTrimS course.courseId) (mergedClassName course)) = true := by
        by_contra hno
        rw [Bool.not_eq_true, List.any_eq_false] at hno
        rw [(findIdx?_none_iff_all_false _ classes 0).mpr
          (fun a ha => by simpa using hno a ha)] at hidx
        exact Option.noConfusion hidx
      simp only [hany, if_true]
      rw [hidx]
      exact List.length_set classes _ _
    | none =>
      have hall := (findIdx?_none_iff_all_false _ classes 0).mp hidx
      have hany : classes.any (fun e =>
          entryMatches e (jsTrimS course.courseId) (mergedClassName course)) = false := by
        rw [List.any_eq_false]
        intro a ha
        simpa using hall a ha
      simp only [hany, Bool.false_eq_true, if_false]
      rw [hidx]
      simp
  · intro classes course hall
    unfold mergeCourseIntoClassNames
    dsimp only
    rw [(findIdx?_none_iff_all_false _ classes 0).mpr hall]

/-- C3 amended witness: the length characterization applied at a concrete
store with one matching entry. -/
theorem claim_C3_amended_witness :
    (mergeCourseIntoClassNames [⟨"1", "Bio", []⟩] ⟨"2", "Bio", "", []⟩).1.length =
      (if ([⟨"1", "Bio", []⟩] : List ClassEntry).any (fun e =>
           entryMatches e (jsTrimS "2") (mergedClassName ⟨"2", "Bio", "", []⟩))
       then ([⟨"1", "Bio", []⟩] : List ClassEntry).length
       else ([⟨"1", "Bio", []⟩] : List ClassEntry).length + 1) :=
  claim_C3_amended.2.1 [⟨"1", "Bio", []⟩] ⟨"2", "Bio", "", []⟩

/-! ## Claim C4 -/

/-- C4 counterexample: a batch of two courses where the first succeeds
with one unit and the second fails produces the error-status response (the
handler returns a 500 with the breakdown whenever any course failed), not
a success carrying a failed-courses field. -/
theorem claim_C4_counterexample :
    postConcepts
      [("1", Settled.fulfilled ⟨"1", "One", "One", [Json.str "u"]⟩),
       ("2", Settled.rejected "boom")] (fun _ => "") =
    ConceptsResponse.failure
      "Concept preparation is still in progress or failed for one or more courses"
      [⟨"2", "boom"⟩] :=
  rfl

/-- C4 amended: any failure among the requested courses — a rejected run,
or a fulfilled run with zero units — yields the error-status response
carrying the per-course breakdown (listing each such course with its
error); the success response is returned only when every requested course
fulfilled with at least one unit, and then its failed-courses field is
empty. -/
theorem claim_C4_amended (pairs : List (String × Settled)) (names : String → String)
    (hne : pairs ≠ []) :
    (∀ cid m, (cid, Settled.rejected m) ∈ pairs →
      ∃ fc, postConcepts pairs names =
          ConceptsResponse.failure
            "Concept preparation is still in progress or failed for one or more courses" fc ∧
        (⟨cid, m⟩ : FailedCourse) ∈ fc) ∧
    (∀ cid v, (cid, Settled.fulfilled v) ∈ pairs → v.units = [] →
      ∃ fc, postConcepts pairs names =
          ConceptsResponse.failure
            "Concept preparation is still in progress or failed for one or more courses" fc ∧
        (⟨v.courseId, "No conceptual units returned yet"⟩ : FailedCourse) ∈ fc) ∧
    ((∀ p ∈ pairs, ∃ v, p.2 = Settled.fulfilled v ∧ v.units ≠ []) →
      ((∃ a b u, postConcepts pairs names = ConceptsResponse.singleOk a b u []) ∨
       (∃ cs, postConcepts pairs names = ConceptsResponse.multiOk cs []))) := by
  have hpe : pairs.isEmpty = false := by
    cases pairs with
    | nil => exact absurd rfl hne
    | cons p ps => rfl
  have failBranch : ∀ fc0 : String × String,
      (⟨fc0.1, fc0.2⟩ : FailedCourse) ∈ collectFailedCourses pairs →
      ∃ fc, postConcepts pairs names =
          ConceptsResponse.failure
            "Concept preparation is still in progress or failed for one or more courses" fc ∧
        (⟨fc0.1, fc0.2⟩ : FailedCourse) ∈ fc := by
    intro fc0 hf
    refine ⟨collectFailedCourses pairs, ?_, hf⟩
    unfold postConcepts
    simp only [hpe, Bool.false_eq_true, if_false]
    rcases hcl : collectFailedCourses pairs with _ | ⟨f, fs⟩
    · rw [hcl] at hf
      exact absurd hf (List.not_mem_nil _)
    · rfl
  refine ⟨?_, ?_, ?_⟩
  · intro cid m hmem
    exact failBranch (cid, m) (List.mem_append_left _
      (List.mem_filterMap.mpr ⟨(cid, Settled.rejected m), hmem, rfl⟩))
  · intro cid v hmem hu
    refine failBranch (v.courseId, "No conceptual units returned yet")
      (List.mem_append_right _ (List.mem_filterMap.mpr
        ⟨(cid, Settled.fulfilled v), hmem, ?_⟩))
    unfold emptyUnitsEntry
    dsimp only
    rw [hu]
    rfl
  · intro hall
    have h1 : pairs.filterMap rejectedEntry = [] := by
      rw [List.filterMap_eq_nil_iff]
      intro p hp
      obtain ⟨v, hv, _⟩ := hall p hp
      unfold rejectedEntry
      rw [hv]
    have h2 : pairs.filterMap emptyUnitsEntry = [] := by
      rw [List.filterMap_eq_nil_iff]
      intro p hp
      obtain ⟨v, hv, hvu⟩ := hall p hp
      unfold emptyUnitsEntry
      rw [hv]
      have hie : v.units.isEmpty = false := by
        cases hvv : v.units with
        | nil => exact absurd hvv hvu
        | cons a as => rfl
      simp [hie]
    have hfc : collectFailedCourses pairs = [] := by
      unfold collectFailedCourses
      rw [h1, h2]
      rfl
    cases pairs with
    | nil => exact absurd rfl hne
    | cons p ps =>
      cases ps with
      | nil =>
        left
        refine ⟨(selectCourse names ([p].filterMap (fun q => fulfilledValue q.2)) p.1).courseId,
          (selectCourse names ([p].filterMap (fun q => fulfilledValue q.2)) p.1).courseName,
          (selectCourse names ([p].filterMap (fun q => fulfilledValue q.2)) p.1).units, ?_⟩
        unfold postConcepts
        simp only [hpe, Bool.false_eq_true, if_false]
        rw [hfc]
        rfl
      | cons q qs =>
        right
        refine ⟨List.map (fun c => (c.courseId, c.courseName, c.units))
          (List.map (selectCourse names
            (List.filterMap (fun pr => fulfilledValue pr.2) (p :: q :: qs)))
            (List.map (fun pr => pr.1) (p :: q :: qs))), ?_⟩
        unfold postConcepts
        simp only [hpe, Bool.false_eq_true, if_false]
        rw [hfc]
        rfl

/-- C4 amended witness: one rejected course in a two-course batch yields
the 500 breakdown response containing that course. -/
theorem claim_C4_amended_witness :
    ∃ fc, postConcepts
        [("1", Settled.fulfilled ⟨"1", "One", "One", [Json.str "u"]⟩),
         ("2", Settled.rejected "kaput")] (fun _ => "") =
      ConceptsResponse.failure
        "Concept preparation is still in progress or failed for one or more courses" fc ∧
      (⟨"2", "kaput"⟩ : FailedCourse) ∈ fc :=
  (claim_C4_amended
    [("1", Settled.fulfilled ⟨"1", "One", "One", [Json.str "u"]⟩),
     ("2", Settled.rejected "kaput")] (fun _ => "")
    (by simp)).1 "2" "kaput" (by simp)

/-! ## Claim C9 -/

/-- C9: an access error (401, 403 or 404) on a secondary per-course
endpoint only skips that endpoint — the course is still processed with the
endpoint treated as an empty list and the fetch succeeds — while an error
on the primary course-list fetch propagates and aborts the run. -/
theorem claim_C9_accessSkip :
    (∀ (o : CanvasOracle) (e : HttpErr),
      o.coursesPrimary = Except.error e → fetchCanvasData o = Except.error e) ∧
    (∀ (o : CanvasOracle) (c : CanvasCourse) (st : Nat) (m : String) (fs : List Json),
      o.coursesPrimary = Except.ok [c] →
      c.workflowState = "available" →
      o.assignments c.id = Except.error ⟨some st, m⟩ →
      (st = 401 ∨ st = 403 ∨ st = 404) →
      o.files c.id = Except.ok fs →
      fs ≠ [] →
      jsTrimS c.name ≠ "" →
      fetchCanvasData o = Except.ok ([(c.id, jsTrimS c.name)], [jsTrimS c.name])) := by
  constructor
  · intro o e he
    unfold fetchCanvasData
    rw [he]
  · intro o c st m fs hprim hwf hassign hst hfiles hfs hname
    have hacc : isAccessError ⟨some st, m⟩ = true := by
      rcases hst with rfl | rfl | rfl <;> rfl
    have hlen : fs.length > 0 := List.length_pos.mpr hfs
    have hnlen : (jsTrimS c.name).length > 0 := (string_length_pos_iff _).mpr hname
    have hsafe1 : safeGetAllPages (o.assignments c.id) = Except.ok ([] : List Json) := by
      rw [hassign]
      unfold safeGetAllPages
      simp [hacc]
    have hsafe2 : safeGetAllPages (o.files c.id) = Except.ok fs := by
      rw [hfiles]
      rfl
    have hcollect : collectClasses o [c] = Except.ok [(c.id, jsTrimS c.name)] := by
      unfold collectClasses
      rw [hsafe1, hsafe2]
      simp [collectClasses, hlen, hnlen]
      rfl
    have hactive : (List.filter (fun c =>
        c.workflowState = "" || c.workflowState = "available"
          || c.workflowState = "completed") [c]) = [c] := by
      simp [List.filter, hwf]
    unfold fetchCanvasData
    rw [hprim]
    try dsimp only
    rw [show (if ([c] : List CanvasCourse).length = 0 then o.coursesBare
          else Except.ok [c]) = Except.ok [c] from by simp]
    try dsimp only
    rw [hactive, hcollect]
    rfl

/-- C9 witness: a concrete course whose assignments endpoint returns 403
while files succeed: the fetch succeeds with the course kept, its
assignment list treated as empty. -/
theorem claim_C9_accessSkip_witness :
    fetchCanvasData
      { coursesPrimary := Except.ok [⟨"10", " Chem ", "available"⟩]
        coursesBare := Except.error ⟨none, "unused"⟩
        assignments := fun _ => Except.error ⟨some 403, "forbidden"⟩
        files := fun _ => Except.ok [Json.str "f1"] } =
      Except.ok ([("10", "Chem")], ["Chem"]) :=
  claim_C9_accessSkip.2
    { coursesPrimary := Except.ok [⟨"10", " Chem ", "available"⟩]
      coursesBare := Except.error ⟨none, "unused"⟩
      assignments := fun _ => Except.error ⟨some 403, "forbidden"⟩
      files := fun _ => Except.ok [Json.str "f1"] }
    ⟨"10", " Chem ", "available"⟩ 403 "forbidden" [Json.str "f1"]
    rfl rfl rfl (Or.inr (Or.inl rfl)) rfl (by simp) (by decide)

/-! ## Claim C10 -/

/-- C10: `getConceptualUnits` is total and returns the empty-units result
`{courseId: trimmed id, courseName: "", units: []}` on every failure mode
— spawn error, non-zero exit, empty or unparseable stdout, or an object
payload without a `units` array — and a falsy or non-string course id
likewise yields an empty-units result; a backend failure is therefore
indistinguishable from a course that genuinely has no units. -/
theorem claim_C10_totalRead (cid : String) (sp : SpawnResult) (h : cid ≠ "") :
    (sp.error = true →
      getConceptualUnits (Json.str cid) sp = ⟨Json.str (jsTrimS cid), "", []⟩) ∧
    (sp.status ≠ 0 →
      getConceptualUnits (Json.str cid) sp = ⟨Json.str (jsTrimS cid), "", []⟩) ∧
    ((Json.parseL (jsTrim sp.stdout.data)).isOk = false →
      getConceptualUnits (Json.str cid) sp = ⟨Json.str (jsTrimS cid), "", []⟩) ∧
    (∀ fields, sp.error = false → sp.status = 0 →
      Json.parseL (jsTrim sp.stdout.data) = Except.ok (Json.obj fields) →
      (∀ us, Json.getField (Json.obj fields) "units" ≠ some (Json.arr us)) →
      getConceptualUnits (Json.str cid) sp = ⟨Json.str (jsTrimS cid), "", []⟩) ∧
    (getConceptualUnits (Json.str "") sp = ⟨Json.str "", "", []⟩) ∧
    (∀ j : Json, (∀ s, j ≠ Json.str s) →
      (getConceptualUnits j sp).units = [] ∧ (getConceptualUnits j sp).courseName = "") ∧
    (getConceptualUnits (Json.str "c9") ⟨true, 1, ""⟩ =
      getConceptualUnits (Json.str "c9") ⟨false, 0, "\x7b\"units\": []\x7d"⟩) := by
  refine ⟨?_, ?_, ?_, ?_, rfl, ?_, rfl⟩
  · intro he
    unfold getConceptualUnits
    dsimp only
    rw [if_neg h]
    simp [he]
  · intro hs
    unfold getConceptualUnits
    dsimp only
    rw [if_neg h]
    simp [hs]
  · intro hpf
    unfold getConceptualUnits
    dsimp only
    rw [if_neg h]
    by_cases hfail : (sp.error || decide (sp.status ≠ 0)) = true
    · rw [hfail]
      simp
    · rw [Bool.not_eq_true] at hfail
      rw [hfail]
      simp only [Bool.false_eq_true, if_false]
      by_cases hout : jsTrimS sp.stdout = ""
      · simp [hout]
      · rw [if_neg hout]
        cases hp : Json.parseL (jsTrim sp.stdout.data) with
        | ok v =>
          rw [hp] at hpf
          exact absurd hpf (by simp [Except.isOk, Except.toBool])
        | error e =>
          have hp2 : Json.parse (jsTrimS sp.stdout) = Except.error e := hp
          rw [hp2]
  · intro fields herr hst hp hnoarr
    unfold getConceptualUnits
    dsimp only
    rw [if_neg h]
    have hfail : (sp.error || decide (sp.status ≠ 0)) = false := by
      simp [herr, hst]
    rw [hfail]
    simp only [Bool.false_eq_true, if_false]
    by_cases hout : jsTrimS sp.stdout = ""
    · simp [hout]
    · rw [if_neg hout]
      have hp2 : Json.parse (jsTrimS sp.stdout) = Except.ok (Json.obj fields) := hp
      rw [hp2]
      dsimp only
      cases hf : Json.getField (Json.obj fields) "units" with
      | none => rfl
      | some v =>
        cases v with
        | arr us => exact absurd hf (hnoarr us)
        | null => rfl
        | bool b => rfl
        | num lit => rfl
        | str s => rfl
        | obj fs => rfl
  · intro j hj
    cases j with
    | str s => exact absurd rfl (hj s)
    | null => exact ⟨rfl, rfl⟩
    | bool b => exact ⟨rfl, rfl⟩
    | num lit => exact ⟨rfl, rfl⟩
    | arr es => exact ⟨rfl, rfl⟩
    | obj fs => exact ⟨rfl, rfl⟩

/-- C10 witness: a spawn failure on a concrete course id returns the
trimmed-id empty-units result. -/
theorem claim_C10_totalRead_witness :
    getConceptualUnits (Json.str " c7 ") ⟨true, 0, "ignored"⟩ =
      ⟨Json.str (jsTrimS " c7 "), "", []⟩ :=
  (claim_C10_totalRead " c7 " ⟨true, 0, "ignored"⟩ (by decide)).1 rfl

/-- A text without backticks contains no fence. -/
theorem findTripleBacktick_eq_none (cs : List Char)
    (h : ∀ c ∈ cs, c ≠ backtickChar) : findTripleBacktick cs = none := by
  induction cs with
  | nil => rfl
  | cons c rest ih =>
    have hc : c ≠ backtickChar := h c (List.mem_cons_self _ _)
    have hrest : findTripleBacktick rest = none :=
      ih (fun x hx => h x (List.mem_cons_of_mem _ hx))
    cases rest with
    | nil => rfl
    | cons d rest2 =>
      cases rest2 with
      | nil =>
        unfold findTripleBacktick
        rw [hrest]
        rfl
      | cons e rest3 =>
        unfold findTripleBacktick
        dsimp only
        rw [if_neg (fun hand => hc hand.1), hrest]
        rfl

/-- A text without the opening character yields no first-to-last span. -/
theorem spanFirstToLast_eq_none_of_no_open (cs : List Char) (openC closeC : Char)
    (h : ∀ c ∈ cs, c ≠ openC) : spanFirstToLast cs openC closeC = none := by
  unfold spanFirstToLast
  rw [(findIdx?_none_iff_all_false (fun c => c = openC) cs 0).mpr
    (fun a ha => by simp [h a ha])]

/-! ## Claim C2 -/

/-- C2 counterexample: for a text containing two disjoint top-level object
literals (with trailing text removed), the trailing-object extraction spans
from the first opening brace to the last closing brace, so its parse fails
and the uncaught error escapes — the last literal is not the one parsed,
even though that literal alone is valid JSON. -/
theorem claim_C2_counterexample :
    parseJsonOutput "x \x7b\"a\":1\x7d y \x7b\"b\":2\x7d" =
      Except.error (InvokeErr.jsonThrow "Unexpected non-whitespace character after JSON") ∧
    Json.parse "\x7b\"b\":2\x7d" = Except.ok (Json.obj [("b", Json.num "2")]) :=
  ⟨rfl, rfl⟩

/-- C2 amended: parsing proceeds: whole trimmed text; on failure the first
fenced block's contents, a failure of that inner parse escaping uncaught;
on no (or empty-capture) fence, the span from the first opening brace to
the last closing brace (present when only whitespace follows it), an inner
parse failure again escaping — so a text with two disjoint top-level
object literals fails with a syntax error instead of yielding the last
literal; then likewise the first-to-last bracket span; with no applicable
stage the terminal parse error is thrown. -/
theorem claim_C2_amended :
    (∀ raw : String, ∀ v, Json.parseL (jsTrim raw.data) = Except.ok v →
      parseJsonOutput raw = Except.ok v) ∧
    (∀ raw : String, jsTrim raw.data = [] →
      parseJsonOutput raw = Except.error InvokeErr.emptyOutput) ∧
    (∀ raw : String,
      jsTrim raw.data ≠ [] →
      (Json.parseL (jsTrim raw.data)).isOk = false →
      (∀ c ∈ jsTrim raw.data, c ≠ backtickChar ∧ c ≠ '\x7b' ∧ c ≠ '[') →
      parseJsonOutput raw = Except.error InvokeErr.notValidJson) ∧
    (parseJsonOutput "noise \x7b\"b\":2\x7d" =
      Except.ok (Json.obj [("b", Json.num "2")])) ∧
    (parseJsonOutput "log output [1, 2]" =
      Except.ok (Json.arr [Json.num "1", Json.num "2"])) ∧
    (parseJsonOutput "pre ```json\n\x7b\"a\": 1\x7d\n``` post" =
      Except.ok (Json.obj [("a", Json.num "1")])) ∧
    (parseJsonOutput "```\nnot json\n``` \x7b\"a\":1\x7d" =
      Except.error (InvokeErr.jsonThrow "Unexpected token in JSON")) ∧
    (parseJsonOutput "x \x7b\"a\":1\x7d y \x7b\"b\":2\x7d" =
      Except.error (InvokeErr.jsonThrow "Unexpected non-whitespace character after JSON")) := by
  refine ⟨?_, ?_, ?_, rfl, rfl, rfl, rfl, rfl⟩
  · intro raw v hp
    unfold parseJsonOutput parseJsonOutputL
    by_cases ht : (jsTrim raw.data).isEmpty = true
    · rw [List.isEmpty_iff.mp ht] at hp
      have h0 : Json.parseL [] = Except.error "Unexpected end of JSON input" := rfl
      rw [h0] at hp
      exact Except.noConfusion hp
    · rw [if_neg ht, hp]
  · intro raw h0
    unfold parseJsonOutput parseJsonOutputL
    rw [h0]
    rfl
  · intro raw hne hpf hchars
    unfold parseJsonOutput parseJsonOutputL
    rw [if_neg (by simpa [List.isEmpty_iff] using hne)]
    cases hp : Json.parseL (jsTrim raw.data) with
    | ok v =>
      rw [hp] at hpf
      exact absurd hpf (by simp [Except.isOk, Except.toBool])
    | error e =>
      dsimp only
      have hfg : fencedGroup (jsTrim raw.data) = none := by
        unfold fencedGroup
        rw [findTripleBacktick_eq_none _ (fun c hc => (hchars c hc).1)]
      rw [hfg]
      unfold tryTrailing
      rw [spanFirstToLast_eq_none_of_no_open _ _ _ (fun c hc => (hchars c hc).2.1),
        spanFirstToLast_eq_none_of_no_open _ _ _ (fun c hc => (hchars c hc).2.2)]

/-- C2 amended witness: a raw text that is itself valid JSON is parsed in
the first stage. -/
theorem claim_C2_amended_witness :
    Json.parseL (jsTrim ("7" : String).data) = Except.ok (Json.num "7") ∧
    parseJsonOutput "7" = Except.ok (Json.num "7") :=
  ⟨rfl, claim_C2_amended.1 "7" (Json.num "7") rfl⟩
